import Mathlib

/-!
Shallow embedding of two JupyterLab front-end source files:

* `packages/console/src/tracker.ts` — the console-widget instance tracker
  token `IConsoleTracker` and its interface.
* the file-browser extension (`src/unnamed/part_000`) — three plugins
  (`factory`, `browser`, `menu`), the file-browser factory
  (`activateFactory` / `createFileBrowser`), the command set registered by
  `addCommands`, the top-level menu (`createMenu`), the context menu
  (`createContextMenu`), and the launcher helper (`createLauncher`).

Host-provided services (document manager, state database, command
registry, layout restorer, shell) are abstract parameters; effects on
them are recorded as explicit effect values.
-/

namespace JL

/-- A phosphor `Token<T>`: identified by its name string
(`new Token<IConsoleTracker>('@jupyterlab/console:IConsoleTracker')`). -/
structure Token where
  name : String
deriving DecidableEq, Repr

/-- The console tracker token from `packages/console/src/tracker.ts`. -/
def IConsoleTracker : Token :=
  ⟨"@jupyterlab/console:IConsoleTracker"⟩

/-- The token identities that occur in the two files' plugin wiring. -/
inductive TokenId where
  | IFileBrowserFactory
  | ILayoutRestorer
  | IDocumentManager
  | IStateDB
  | IMainMenu
deriving DecidableEq, Repr

/-- Tags naming the three activate functions of the file-browser file. -/
inductive ActivateFn where
  | activateFactory
  | activateBrowser
  | activateMenu
deriving DecidableEq, Repr

/-- A `JupyterLabPlugin` value: its id, activate function, declared
`requires`, optional `provides` token and optional `autoStart` flag
(absent fields of the TS object literal are `none`). -/
structure JupyterLabPlugin where
  id : String
  activate : ActivateFn
  requires : List TokenId
  provides : Option TokenId := none
  autoStart : Option Bool := none
deriving DecidableEq, Repr

/-- The default file browser extension (`const browser`). -/
def browser : JupyterLabPlugin :=
  { activate := .activateBrowser
    id := "@jupyterlab/filebrowser-extension:browser"
    requires := [.IFileBrowserFactory, .ILayoutRestorer]
    autoStart := some true }

/-- The default file browser factory provider (`const factory`). -/
def factory : JupyterLabPlugin :=
  { activate := .activateFactory
    id := "@jupyterlab/filebrowser-extension:factory"
    provides := some .IFileBrowserFactory
    requires := [.IDocumentManager, .IStateDB] }

/-- The default file browser menu extension (`const menu`). -/
def menu : JupyterLabPlugin :=
  { activate := .activateMenu
    id := "@jupyterlab/filebrowser-extension:menu"
    requires := [.IMainMenu]
    autoStart := some true }

/-- The file browser namespace token (`const namespace = 'filebrowser'`). -/
def fbNamespace : String := "filebrowser"

/-- The default export of the file-browser file
(`const plugins = [factory, browser, menu]`). -/
def plugins : List JupyterLabPlugin := [factory, browser, menu]

/-- What a source file exports into the host application. -/
inductive FileExport where
  | token (t : Token)
  | interface (name : String)
  | defaultPlugins (ps : List JupyterLabPlugin)
deriving DecidableEq, Repr

/-- The exports of `packages/console/src/tracker.ts`: the token value and
the interface of the same name; the file declares no plugin. -/
def trackerTsExports : List FileExport :=
  [.token IConsoleTracker, .interface "IConsoleTracker"]

/-- The exports of the file-browser extension file: the default export is
the plugin list. -/
def fileBrowserExports : List FileExport :=
  [.defaultPlugins plugins]

/-- The `JupyterLabPlugin` values a file contributes. -/
def FileExport.pluginsOf : FileExport → List JupyterLabPlugin
  | .token _ => []
  | .interface _ => []
  | .defaultPlugins ps => ps

/-- All plugins contributed by a file's exports. -/
def contributedPlugins (exports : List FileExport) : List JupyterLabPlugin :=
  exports.flatMap FileExport.pluginsOf

/-! ### The command IDs used by the file browser plugin (`namespace CommandIDs`) -/

namespace CommandIDs

def copy : String := "filebrowser:copy"

def cut : String := "filebrowser:cut"

def del : String := "filebrowser:delete"

def download : String := "filebrowser:download"

def duplicate : String := "filebrowser:duplicate"

def hideBrowser : String := "filebrowser:hide-main"

def openCmd : String := "filebrowser:open"

def paste : String := "filebrowser:paste"

def rename : String := "filebrowser:rename"

def showBrowser : String := "filebrowser:activate-main"

def shutdown : String := "filebrowser:shutdown"

def toggleBrowser : String := "filebrowser:toggle-main"

def createLauncher : String := "filebrowser:create-main-launcher"

end CommandIDs

/-! ### Menus -/

/-- An item of a phosphor `Menu`: a command item (with its `args`, a
string-keyed record), a separator, or a submenu (title and items). -/
inductive MenuItem where
  | command (cmd : String) (args : List (String × String))
  | separator
  | submenu (title : String) (items : List MenuItem)

/-- A phosphor `Menu`: its `title.label` and its item list. -/
structure Menu where
  title : String := ""
  items : List MenuItem

/-- Whether a menu item is a submenu. -/
def MenuItem.isSubmenu : MenuItem → Bool
  | .submenu _ _ => true
  | _ => false

/-- `createMenu`: the top level 'File' menu for the file browser. -/
def createMenu : Menu :=
  { title := "File"
    items :=
      ([ CommandIDs.createLauncher,
         "docmanager:save",
         "docmanager:save-as",
         "docmanager:rename",
         "docmanager:restore-checkpoint",
         "docmanager:clone",
         "docmanager:close",
         "docmanager:close-all-files"
       ].map (fun command => MenuItem.command command []))
      ++ [MenuItem.separator, MenuItem.command "settingeditor:open" []] }

/-! ### Host-provided services (abstract) -/

/-- An injected `IStateDB` handle (abstract, identified by a tag). -/
structure IStateDB where
  tag : Nat
deriving DecidableEq, Repr

/-- An injected `CommandRegistry` handle (abstract, identified by a tag). -/
structure CommandRegistry where
  tag : Nat
deriving DecidableEq, Repr

/-- A widget factory as reported by the document registry; only its
`name` is read by this code. -/
structure WidgetFactory where
  name : String
deriving DecidableEq, Repr

/-- The host `DocumentRegistry`: answers `preferredWidgetFactories(path)`
with the ordered factories for that path. -/
structure DocumentRegistry where
  preferredWidgetFactories : String → List WidgetFactory

/-- An injected `IDocumentManager` handle: the abstract manager identity
together with its `registry`. -/
structure IDocumentManager where
  tag : Nat
  registry : DocumentRegistry

/-! ### JavaScript optional-value semantics -/

/-- A JavaScript value of type `α` that may also be `undefined` (the field
is absent) or `null`. -/
inductive JsVal (α : Type) where
  | undefined
  | null
  | val (a : α)
deriving DecidableEq, Repr

/-- Truthiness of a `JsVal` holding an object: `undefined` and `null` are
falsy, every object value is truthy. -/
def JsVal.truthy : JsVal α → Bool
  | .undefined => false
  | .null => false
  | .val _ => true

/-- `IFileBrowserFactory.IOptions`: the optional fields of the
`createFileBrowser` options object. A TS field left out of the object
literal is `undefined` / `none`. -/
structure IOptions where
  driveName : Option String := none
  state : JsVal IStateDB := .undefined
  commands : Option CommandRegistry := none
deriving DecidableEq, Repr

/-- JS `x || dflt` on an optional string: `undefined` and `''` are falsy. -/
def jsOrString (x : Option String) (dflt : String) : String :=
  match x with
  | none => dflt
  | some s => if s = "" then dflt else s

/-- JS `options.state === null ? null : options.state || state`:
the model's `state` argument in `createFileBrowser`. -/
def resolveState (optState : JsVal IStateDB) (state : IStateDB) : Option IStateDB :=
  match optState with
  | .null => none
  | .undefined => some state
  | .val s => some s

/-! ### The file browser factory (`activateFactory` / `createFileBrowser`) -/

/-- The arguments `new FileBrowserModel({...})` is called with. -/
structure FileBrowserModel where
  manager : Nat
  driveName : String
  state : Option IStateDB
deriving DecidableEq, Repr

/-- The arguments `new FileBrowser({ id, model, commands })` is called
with: the widget as created by the factory. -/
structure FileBrowser where
  id : String
  model : FileBrowserModel
  commands : CommandRegistry
deriving DecidableEq, Repr

/-- The side effects `createFileBrowser` performs, in program order. -/
inductive FactoryEffect where
  | newFileBrowserModel (m : FileBrowserModel)
  | newFileBrowser (w : FileBrowser)
  | toolbarInsertItem (index : Nat) (name : String) (className : String)
  | addDomListener (targetClass : String) (eventType : String)
  | trackerAdd (widgetId : String)
deriving DecidableEq, Repr

/-- `createFileBrowser(id, options)` from `activateFactory`, with the
injected document manager, state database and the application's command
registry in scope. Returns the created widget and the effect trace. -/
def createFileBrowser (docManager : IDocumentManager) (state : IStateDB)
    (appCommands : CommandRegistry) (id : String)
    (options : IOptions := {}) : FileBrowser × List FactoryEffect :=
  let model : FileBrowserModel :=
    { manager := docManager.tag
      driveName := jsOrString options.driveName ""
      state := resolveState options.state state }
  let widget : FileBrowser :=
    { id := id, model := model
      commands := options.commands.getD appCommands }
  (widget,
   [ .newFileBrowserModel model,
     .newFileBrowser widget,
     .toolbarInsertItem 0 "launch" "jp-AddIcon",
     .addDomListener "jp-DirListing-content" "contextmenu",
     .trackerAdd widget.id ])

/-- The `IFileBrowserFactory` record returned by `activateFactory`
(`{ createFileBrowser, defaultBrowser, tracker }`); the tracker is
represented by its namespace and the ids added so far. -/
structure IFileBrowserFactoryValue where
  defaultBrowser : FileBrowser
  trackerNamespace : String
  trackerWidgetIds : List String
deriving DecidableEq, Repr

/-- `activateFactory(app, docManager, state)`: creates the tracker,
defines `createFileBrowser`, builds the default browser with id
`'filebrowser'`, and returns the factory record. -/
def activateFactory (docManager : IDocumentManager) (state : IStateDB)
    (appCommands : CommandRegistry) : IFileBrowserFactoryValue :=
  let defaultBrowser := (createFileBrowser docManager state appCommands "filebrowser").1
  { defaultBrowser := defaultBrowser
    trackerNamespace := fbNamespace
    trackerWidgetIds := [defaultBrowser.id] }

/-! ### Command execution semantics (`addCommands`) -/

/-- An item of the file browser's directory listing selection; `open`
reads its `type` and `path`. -/
structure ContentsItem where
  type : String
  path : String
deriving DecidableEq, Repr

/-- The runtime view of a file browser widget that the command bodies
read: its id, hidden state, selected items and current model path. -/
structure FBWidgetState where
  id : String
  isHidden : Bool
  selectedItems : List ContentsItem
  modelPath : String
deriving DecidableEq, Repr

/-- The environment a command's `execute` closure sees: the tracker's
`currentWidget` (possibly `null`) and the default `browser` widget. -/
structure CmdEnv where
  currentWidget : Option FBWidgetState
  browser : FBWidgetState
deriving DecidableEq, Repr

/-- The host-provided objects a command body may call into. -/
inductive HostTarget where
  | trackerWidget
  | defaultBrowser
  | shell
  | commandRegistry
deriving DecidableEq, Repr

/-- A single call into a host-provided object, as performed by the
`execute` bodies registered in `addCommands`. -/
inductive HostCall where
  | widgetDelete
  | widgetCopy
  | widgetCut
  | widgetDownload
  | widgetDuplicate
  | widgetPaste
  | widgetRename
  | widgetShutdownKernels
  | widgetModelCd (path : String)
  | shellCollapseLeft
  | shellActivateById (id : String)
  | commandsExecute (cmd : String)
deriving DecidableEq, Repr

/-- Which host object a call targets. -/
def HostCall.target : HostCall → HostTarget
  | .widgetDelete => .trackerWidget
  | .widgetCopy => .trackerWidget
  | .widgetCut => .trackerWidget
  | .widgetDownload => .trackerWidget
  | .widgetDuplicate => .trackerWidget
  | .widgetPaste => .trackerWidget
  | .widgetRename => .trackerWidget
  | .widgetShutdownKernels => .trackerWidget
  | .widgetModelCd _ => .trackerWidget
  | .shellCollapseLeft => .shell
  | .shellActivateById _ => .shell
  | .commandsExecute _ => .commandRegistry

/-- A call is host-provided when its target is one of the four objects
the bodies receive from the host. -/
def HostCall.isHostProvided (c : HostCall) : Bool :=
  c.target = HostTarget.trackerWidget || c.target = HostTarget.defaultBrowser
    || c.target = HostTarget.shell || c.target = HostTarget.commandRegistry

/-- What an `execute` body returns: `undefined`, or the promise produced
by a host call. -/
inductive ExecOutcome where
  | undef
  | promised (c : HostCall)
deriving DecidableEq, Repr

/-- The common body of the tracker-backed commands: guard on
`tracker.currentWidget`, then invoke one widget method and return its
promise. -/
def execWidgetOp (op : HostCall) (env : CmdEnv) : List HostCall × ExecOutcome :=
  match env.currentWidget with
  | none => ([], .undef)
  | some _ => ([op], .promised op)

/-- `filebrowser:hide-main`: collapse the left area unless the browser is
already hidden. -/
def execHideBrowser (env : CmdEnv) : List HostCall × ExecOutcome :=
  if env.browser.isHidden then ([], .undef)
  else ([.shellCollapseLeft], .undef)

/-- `filebrowser:open`: for each selected item, `cd` into directories and
`docmanager:open` everything else. -/
def execOpen (env : CmdEnv) : List HostCall × ExecOutcome :=
  match env.currentWidget with
  | none => ([], .undef)
  | some w =>
    (w.selectedItems.map (fun item =>
        if item.type = "directory" then HostCall.widgetModelCd item.path
        else HostCall.commandsExecute "docmanager:open"),
     .undef)

/-- `filebrowser:activate-main`: activate the default browser by id. -/
def execShowBrowser (env : CmdEnv) : List HostCall × ExecOutcome :=
  ([.shellActivateById env.browser.id], .undef)

/-- `filebrowser:toggle-main`: delegate to show or hide. -/
def execToggleBrowser (env : CmdEnv) : List HostCall × ExecOutcome :=
  if env.browser.isHidden then
    ([.commandsExecute CommandIDs.showBrowser],
     .promised (.commandsExecute CommandIDs.showBrowser))
  else
    ([.commandsExecute CommandIDs.hideBrowser],
     .promised (.commandsExecute CommandIDs.hideBrowser))

/-- `filebrowser:create-main-launcher`: `createLauncher(commands, browser)`
executes `launcher:create` with the browser model's path as `cwd` and
returns its promise. -/
def execCreateLauncher (_env : CmdEnv) : List HostCall × ExecOutcome :=
  ([.commandsExecute "launcher:create"],
   .promised (.commandsExecute "launcher:create"))

/-- The commands registered by `addCommands`, in registration order, each
with its `execute` semantics. -/
def addCommands : List (String × (CmdEnv → List HostCall × ExecOutcome)) :=
  [ (CommandIDs.del, execWidgetOp .widgetDelete),
    (CommandIDs.copy, execWidgetOp .widgetCopy),
    (CommandIDs.cut, execWidgetOp .widgetCut),
    (CommandIDs.download, execWidgetOp .widgetDownload),
    (CommandIDs.duplicate, execWidgetOp .widgetDuplicate),
    (CommandIDs.hideBrowser, execHideBrowser),
    (CommandIDs.openCmd, execOpen),
    (CommandIDs.paste, execWidgetOp .widgetPaste),
    (CommandIDs.rename, execWidgetOp .widgetRename),
    (CommandIDs.showBrowser, execShowBrowser),
    (CommandIDs.shutdown, execWidgetOp .widgetShutdownKernels),
    (CommandIDs.toggleBrowser, execToggleBrowser),
    (CommandIDs.createLauncher, execCreateLauncher) ]

/-- The ids registered by `addCommands`, in registration order. -/
def addCommandsIds : List String := addCommands.map Prod.fst

/-- Look up a registered command's `execute` and run it; executing an id
not registered here does nothing. -/
def execCommand (cmd : String) (env : CmdEnv) : List HostCall × ExecOutcome :=
  match addCommands.find? (fun p => p.1 = cmd) with
  | some p => p.2 env
  | none => ([], .undef)

/-! ### Context menu (`createContextMenu`) -/

/-- `createContextMenu(path, commands, registry)`: the context menu for
the file browser listing. -/
def createContextMenu (path : String) (_commands : CommandRegistry)
    (registry : DocumentRegistry) : Menu :=
  let factories := (registry.preferredWidgetFactories path).map WidgetFactory.name
  { items :=
      [MenuItem.command CommandIDs.openCmd []]
      ++ (if path ≠ "" ∧ factories.length > 1 then
            [MenuItem.submenu "Open With..."
              (factories.map (fun factory =>
                MenuItem.command "docmanager:open" [("factory", factory), ("path", path)]))]
          else [])
      ++ [ MenuItem.command CommandIDs.rename [],
           MenuItem.command CommandIDs.del [],
           MenuItem.command CommandIDs.duplicate [],
           MenuItem.command CommandIDs.cut [],
           MenuItem.command CommandIDs.copy [],
           MenuItem.command CommandIDs.paste [],
           MenuItem.command CommandIDs.download [],
           MenuItem.command CommandIDs.shutdown [] ] }

/-! ### Activation effects and asynchronous constructs -/

/-- The promise sources the file consumes asynchronously. -/
inductive AsyncSource where
  | appRestored
  | modelRestored
  | promiseAllAppAndModelRestored
  | commandsExecutePromise (cmd : String)
deriving DecidableEq, Repr

/-- The side effects of the activate functions. -/
inductive ActivationEffect where
  | restorerAdd (ns : String)
  | commandsAddCommand (id : String)
  | setTitleLabel (label : String)
  | shellAddToLeftArea (widgetId : String) (rank : Nat)
  | registerThen (p : AsyncSource)
  | signalConnect (signal : String)
  | mainMenuAddMenu (menuTitle : String) (rank : Nat)
deriving DecidableEq, Repr

/-- `activateBrowser(app, factory, restorer)`: effect trace in program
order (the two trailing `registerThen`s are the `.then` registrations on
`app.restored` and on `Promise.all([app.restored, model.restored])`). -/
def activateBrowserEffects (browserId : String) : List ActivationEffect :=
  [.restorerAdd fbNamespace]
  ++ addCommandsIds.map ActivationEffect.commandsAddCommand
  ++ [ .setTitleLabel "Files",
       .shellAddToLeftArea browserId 100,
       .registerThen .appRestored,
       .registerThen .promiseAllAppAndModelRestored ]

/-- `activateMenu(app, mainMenu)`: adds `createMenu(app)` at rank 1. -/
def activateMenuEffects : List ActivationEffect :=
  [.mainMenuAddMenu createMenu.title 1]

/-- Every asynchronous construct appearing in the file-browser file:
`app.restored.then(...)` and
`Promise.all([app.restored, browser.model.restored]).then(...)` in
`activateBrowser`, `model.restored.then(...)` inside `maybeCreate`, and
`commands.execute('launcher:create', ...).then(...)` in
`createLauncher`. -/
def fileBrowserAsyncConstructs : List AsyncSource :=
  [ .appRestored,
    .promiseAllAppAndModelRestored,
    .modelRestored,
    .commandsExecutePromise "launcher:create" ]

/-- An async construct the spec allows: a `.then` continuation on
`app.restored`, `model.restored`, `Promise.all` of the two, or a
`commands.execute` promise. -/
def AsyncSource.isTrivialChain : AsyncSource → Bool
  | .appRestored => true
  | .modelRestored => true
  | .promiseAllAppAndModelRestored => true
  | .commandsExecutePromise _ => true

/-! ### Constructor calls vs. injected services -/

/-- The class names instantiated with `new` anywhere in the file-browser
file, in source order: `InstanceTracker` and `FileBrowserModel`,
`FileBrowser`, `ToolbarButton` in `activateFactory`, and the three
`Menu`s in `createMenu` and `createContextMenu`. -/
def constructedClassNames : List String :=
  [ "InstanceTracker", "FileBrowserModel", "FileBrowser", "ToolbarButton",
    "Menu", "Menu", "Menu" ]

/-- The service types the spec declares externally supplied. -/
def injectedServiceClassNames : List String :=
  ["CommandRegistry", "ILayoutRestorer", "IDocumentManager", "IStateDB"]

/-! ### Concrete fixtures for witnesses -/

/-- A concrete document manager whose registry reports two factories for
every path. -/
def dmFix : IDocumentManager :=
  { tag := 0, registry := ⟨fun _ => [⟨"Editor"⟩, ⟨"Notebook"⟩]⟩ }

/-- A concrete state database handle. -/
def stFix : IStateDB := ⟨0⟩

/-- A concrete application command registry handle. -/
def crFix : CommandRegistry := ⟨1⟩

/-- A concrete file browser widget state. -/
def wFix : FBWidgetState :=
  { id := "filebrowser", isHidden := false, selectedItems := [], modelPath := "" }

/-- The commands whose `execute` bodies start with the
`tracker.currentWidget` null guard. -/
def trackerBackedIds : List String :=
  [ CommandIDs.copy, CommandIDs.cut, CommandIDs.del, CommandIDs.download,
    CommandIDs.duplicate, CommandIDs.openCmd, CommandIDs.paste,
    CommandIDs.rename, CommandIDs.shutdown ]

/-! ## Theorems -/

/-- C1: the repository consists of the console tracker token (named
`@jupyterlab/console:IConsoleTracker`) and the file-browser extension
whose default export is exactly `[factory, browser, menu]`; `factory`
provides `IFileBrowserFactory`, `browser` adds the default browser to the
left sidebar, and `menu` adds the 'File' menu to the main menu. -/
theorem C1_repository_structure :
    IConsoleTracker.name = "@jupyterlab/console:IConsoleTracker"
    ∧ trackerTsExports = [.token IConsoleTracker, .interface "IConsoleTracker"]
    ∧ plugins = [factory, browser, menu]
    ∧ plugins.length = 3
    ∧ factory.provides = some TokenId.IFileBrowserFactory
    ∧ ActivationEffect.shellAddToLeftArea "filebrowser" 100
        ∈ activateBrowserEffects "filebrowser"
    ∧ ActivationEffect.mainMenuAddMenu "File" 1 ∈ activateMenuEffects := by
  refine ⟨rfl, rfl, rfl, rfl, rfl, ?_, ?_⟩ <;> decide

/-- C2 (counterexample): the console tracker file contributes zero
`JupyterLabPlugin` values, so it is false that each of the two source
files contributes at least one plugin with an id, activate function and
declared requires. -/
theorem C2_tracker_has_no_plugin :
    ¬ 1 ≤ (contributedPlugins trackerTsExports).length := by
  decide

/-- C2 (amended): both files feed the host's plugin/token
dependency-injection system, but only the file-browser file contributes
`JupyterLabPlugin` values — three of them, each with a nonempty id and
nonempty declared requires and an activate function — while the console
tracker file contributes a `Token` (plus its interface) and no plugin. -/
theorem C2_plugin_contributions :
    (contributedPlugins fileBrowserExports).length = 3
    ∧ ((contributedPlugins fileBrowserExports).all
        (fun p => !p.id.isEmpty && !p.requires.isEmpty)) = true
    ∧ contributedPlugins trackerTsExports = []
    ∧ FileExport.token IConsoleTracker ∈ trackerTsExports := by
  refine ⟨rfl, ?_, rfl, ?_⟩ <;> decide

/-- C3: `createFileBrowser` is a thin adapter — for every id and options
it builds one model from the injected document manager, one widget with
exactly that id and model, inserts the 'launch' toolbar button at index
0, installs a `contextmenu` listener on the directory listing, adds the
widget to the tracker, returns the widget, and performs nothing else; the
factory's `defaultBrowser` is the widget created with id 'filebrowser'. -/
theorem C3_factory_thin_adapter (docManager : IDocumentManager) (state : IStateDB)
    (appCommands : CommandRegistry) (id : String) (options : IOptions) :
    (createFileBrowser docManager state appCommands id options).1.id = id
    ∧ (createFileBrowser docManager state appCommands id options).1.model.manager
        = docManager.tag
    ∧ (createFileBrowser docManager state appCommands id options).2
        = [ FactoryEffect.newFileBrowserModel
              (createFileBrowser docManager state appCommands id options).1.model,
            FactoryEffect.newFileBrowser
              (createFileBrowser docManager state appCommands id options).1,
            FactoryEffect.toolbarInsertItem 0 "launch" "jp-AddIcon",
            FactoryEffect.addDomListener "jp-DirListing-content" "contextmenu",
            FactoryEffect.trackerAdd id ]
    ∧ (activateFactory docManager state appCommands).defaultBrowser
        = (createFileBrowser docManager state appCommands "filebrowser").1
    ∧ (activateFactory docManager state appCommands).defaultBrowser.id
        = "filebrowser" :=
  ⟨rfl, rfl, rfl, rfl, rfl⟩

/-- C4: `addCommands` registers exactly the thirteen `filebrowser:*`
commands, and every `execute` body, in every environment, performs only
calls whose target is a host-provided object (the tracker's current
widget, the default browser, the shell, or the command registry). -/
theorem C4_commands_are_host_calls :
    addCommandsIds.Perm
      [ "filebrowser:copy", "filebrowser:cut", "filebrowser:delete",
        "filebrowser:download", "filebrowser:duplicate", "filebrowser:hide-main",
        "filebrowser:open", "filebrowser:paste", "filebrowser:rename",
        "filebrowser:activate-main", "filebrowser:shutdown",
        "filebrowser:toggle-main", "filebrowser:create-main-launcher" ]
    ∧ ∀ (cmd : String) (env : CmdEnv),
        ((execCommand cmd env).1).all HostCall.isHostProvided = true := by
  constructor
  · decide
  · intro cmd env
    have h : ∀ c : HostCall, c.isHostProvided = true := by
      intro c
      cases c <;> rfl
    exact List.all_eq_true.2 fun c _ => h c

/-- C5: `createMenu` always returns a menu titled 'File' whose items are,
in order, the eight listed commands, then one separator, then
`settingeditor:open`. -/
theorem C5_createMenu_fixed :
    createMenu.title = "File"
    ∧ createMenu.items =
      [ MenuItem.command "filebrowser:create-main-launcher" [],
        MenuItem.command "docmanager:save" [],
        MenuItem.command "docmanager:save-as" [],
        MenuItem.command "docmanager:rename" [],
        MenuItem.command "docmanager:restore-checkpoint" [],
        MenuItem.command "docmanager:clone" [],
        MenuItem.command "docmanager:close" [],
        MenuItem.command "docmanager:close-all-files" [],
        MenuItem.separator,
        MenuItem.command "settingeditor:open" [] ] :=
  ⟨rfl, rfl⟩

/-- C6: none of the four externally supplied service types is ever
instantiated with `new` in the file-browser file; they enter only through
plugin `requires` (and function parameters), as witnessed by the
`requires` lists of `factory` and `browser`. -/
theorem C6_services_injected :
    (injectedServiceClassNames.all
      (fun s => !constructedClassNames.contains s)) = true
    ∧ factory.requires = [TokenId.IDocumentManager, TokenId.IStateDB]
    ∧ browser.requires = [TokenId.IFileBrowserFactory, TokenId.ILayoutRestorer] := by
  refine ⟨?_, rfl, rfl⟩
  decide

/-- C7: the only asynchronous constructs in the file-browser file are
`.then` continuations on `app.restored`, `model.restored`, `Promise.all`
of the two, and a `commands.execute` promise; in particular every `.then`
registration performed by `activateBrowser` is on one of these. -/
theorem C7_async_trivial_chaining :
    fileBrowserAsyncConstructs =
      [ AsyncSource.appRestored,
        AsyncSource.promiseAllAppAndModelRestored,
        AsyncSource.modelRestored,
        AsyncSource.commandsExecutePromise "launcher:create" ]
    ∧ (fileBrowserAsyncConstructs.all AsyncSource.isTrivialChain) = true
    ∧ ((activateBrowserEffects "filebrowser").all
        (fun e => match e with
          | ActivationEffect.registerThen p => p.isTrivialChain
          | _ => true)) = true := by
  refine ⟨rfl, ?_, ?_⟩ <;> decide

/-- C8: for every tracker-backed command, executing with a null
`tracker.currentWidget` returns `undefined` and performs no host call. -/
theorem C8_null_current_widget_noop (cmd : String) (env : CmdEnv)
    (hcmd : cmd ∈ trackerBackedIds) (hw : env.currentWidget = none) :
    execCommand cmd env = ([], ExecOutcome.undef) := by
  have hop : ∀ op, execWidgetOp op env = ([], ExecOutcome.undef) := by
    intro op
    unfold execWidgetOp
    rw [hw]
  have hopen : execOpen env = ([], ExecOutcome.undef) := by
    unfold execOpen
    rw [hw]
  fin_cases hcmd
  · exact hop HostCall.widgetCopy
  · exact hop HostCall.widgetCut
  · exact hop HostCall.widgetDelete
  · exact hop HostCall.widgetDownload
  · exact hop HostCall.widgetDuplicate
  · exact hopen
  · exact hop HostCall.widgetPaste
  · exact hop HostCall.widgetRename
  · exact hop HostCall.widgetShutdownKernels

/-- C8 witness: the copy command at a concrete environment with no
current widget. -/
theorem C8_null_current_widget_noop_witness :
    execCommand "filebrowser:copy" { currentWidget := none, browser := wFix }
      = ([], ExecOutcome.undef) :=
  C8_null_current_widget_noop _ _ (by decide) rfl

/-- C9: `createContextMenu` contains the 'Open With...' submenu iff the
path is non-empty and the registry reports more than one preferred widget
factory; the non-submenu items are always exactly the nine
`filebrowser:*` commands in the fixed order, starting with
`filebrowser:open`; and when the submenu is present the full item list is
open, the submenu (one `docmanager:open` item per factory name, in
registry order), then the remaining eight. -/
theorem C9_context_menu_shape (path : String) (commands : CommandRegistry)
    (registry : DocumentRegistry) :
    ((createContextMenu path commands registry).items.any MenuItem.isSubmenu = true
      ↔ path ≠ ""
        ∧ 1 < ((registry.preferredWidgetFactories path).map WidgetFactory.name).length)
    ∧ (createContextMenu path commands registry).items.filter
        (fun i => !i.isSubmenu)
        = [ MenuItem.command "filebrowser:open" [],
            MenuItem.command "filebrowser:rename" [],
            MenuItem.command "filebrowser:delete" [],
            MenuItem.command "filebrowser:duplicate" [],
            MenuItem.command "filebrowser:cut" [],
            MenuItem.command "filebrowser:copy" [],
            MenuItem.command "filebrowser:paste" [],
            MenuItem.command "filebrowser:download" [],
            MenuItem.command "filebrowser:shutdown" [] ]
    ∧ (createContextMenu path commands registry).items.head?
        = some (MenuItem.command "filebrowser:open" [])
    ∧ (path = ""
         ∨ ((registry.preferredWidgetFactories path).map WidgetFactory.name).length ≤ 1
         ∨ (createContextMenu path commands registry).items
            = [ MenuItem.command "filebrowser:open" [],
                MenuItem.submenu "Open With..."
                  (((registry.preferredWidgetFactories path).map WidgetFactory.name).map
                    (fun factory =>
                      MenuItem.command "docmanager:open"
                        [("factory", factory), ("path", path)])),
                MenuItem.command "filebrowser:rename" [],
                MenuItem.command "filebrowser:delete" [],
                MenuItem.command "filebrowser:duplicate" [],
                MenuItem.command "filebrowser:cut" [],
                MenuItem.command "filebrowser:copy" [],
                MenuItem.command "filebrowser:paste" [],
                MenuItem.command "filebrowser:download" [],
                MenuItem.command "filebrowser:shutdown" [] ]) := by
  by_cases h : path ≠ ""
      ∧ ((registry.preferredWidgetFactories path).map WidgetFactory.name).length > 1
  · refine ⟨?_, ?_, ?_, Or.inr (Or.inr ?_)⟩
    · simp only [createContextMenu]
      rw [if_pos h]
      exact iff_of_true rfl h
    · simp only [createContextMenu]
      rw [if_pos h]
      rfl
    · simp only [createContextMenu]
      rw [if_pos h]
      rfl
    · simp only [createContextMenu]
      rw [if_pos h]
      rfl
  · refine ⟨?_, ?_, ?_, ?_⟩
    · simp only [createContextMenu]
      rw [if_neg h]
      exact iff_of_false Bool.false_ne_true h
    · simp only [createContextMenu]
      rw [if_neg h]
      rfl
    · simp only [createContextMenu]
      rw [if_neg h]
      rfl
    · rcases not_and_or.1 h with h1 | h2
      · exact Or.inl (not_not.1 h1)
      · exact Or.inr (Or.inl (not_lt.1 h2))

/-- C9 witness: a concrete non-empty path with two preferred factories
makes the submenu appear with both factories, in registry order. -/
theorem C9_context_menu_shape_witness :
    (createContextMenu "a.txt" crFix dmFix.registry).items.any MenuItem.isSubmenu
      = true :=
  (C9_context_menu_shape "a.txt" crFix dmFix.registry).1.mpr
    ⟨by decide, by decide⟩

/-- C10: `createFileBrowser` option defaulting distinguishes `null` from
absent — the model's state is `null` exactly when `options.state === null`,
is `options.state` when that is a (truthy) value, and otherwise falls back
to the plugin-level state database; `driveName` defaults to `''` and the
widget's command registry defaults to the application's registry when not
supplied. -/
theorem C10_option_defaulting (docManager : IDocumentManager) (state : IStateDB)
    (appCommands : CommandRegistry) (id : String) (options : IOptions) :
    ((createFileBrowser docManager state appCommands id options).1.model.state = none
      ↔ options.state = JsVal.null)
    ∧ (∀ s : IStateDB, options.state = JsVal.val s →
        (createFileBrowser docManager state appCommands id options).1.model.state
          = some s)
    ∧ (options.state = JsVal.undefined →
        (createFileBrowser docManager state appCommands id options).1.model.state
          = some state)
    ∧ (options.driveName = none →
        (createFileBrowser docManager state appCommands id options).1.model.driveName
          = "")
    ∧ (options.commands = none →
        (createFileBrowser docManager state appCommands id options).1.commands
          = appCommands) := by
  obtain ⟨dn, st, cm⟩ := options
  refine ⟨?_, ?_, ?_, ?_, ?_⟩
  · cases st <;>
      simp [createFileBrowser, resolveState]
  · intro s hs
    cases st <;> simp_all [createFileBrowser, resolveState]
  · intro hs
    cases st <;> simp_all [createFileBrowser, resolveState]
  · intro hd
    subst hd
    rfl
  · intro hc
    subst hc
    rfl

/-- C10 witness: a supplied state value is used, a `null` state yields a
null model state, and an empty options object falls back to the
plugin-level state database, empty drive name and application registry. -/
theorem C10_option_defaulting_witness :
    (createFileBrowser dmFix stFix crFix "filebrowser"
        { state := JsVal.val ⟨7⟩ }).1.model.state = some ⟨7⟩
    ∧ (createFileBrowser dmFix stFix crFix "filebrowser" {}).1.model.state
        = some stFix
    ∧ (createFileBrowser dmFix stFix crFix "filebrowser" {}).1.model.driveName = ""
    ∧ (createFileBrowser dmFix stFix crFix "filebrowser" {}).1.commands = crFix :=
  ⟨(C10_option_defaulting dmFix stFix crFix "filebrowser"
      { state := JsVal.val ⟨7⟩ }).2.1 ⟨7⟩ rfl,
   (C10_option_defaulting dmFix stFix crFix "filebrowser" {}).2.2.1 rfl,
   (C10_option_defaulting dmFix stFix crFix "filebrowser" {}).2.2.2.1 rfl,
   (C10_option_defaulting dmFix stFix crFix "filebrowser" {}).2.2.2.2 rfl⟩

end JL
